import Mathlib

/-!
Shallow embedding of `libs/network/esp32/jswrap_esp32_network.c`, the ESP32
Wi-Fi binding layer of Espruino.

JavaScript values handed to the binding are modelled by `JsVal`; a NULL
`JsVar*` pointer (which Espruino uses to represent `undefined`) is
`Option.none`.  The three process-wide pending-callback slots are the fields
of `WifiState`.  Every observable action of a call — raised exceptions
(`jsExceptionHere`), error logs (`ESP_LOGE`), vendor SDK calls, queued
callback invocations (`jsiQueueEvents`) and published module events
(`sendWifiEvent` / `jsiQueueObjectCallbacks`) — is collected in `Effects`.
Vendor calls that can fail are resolved through a `VendorEnv` giving each
call's `esp_err_t` result (0 is `ESP_OK`).  Byte buffers are `List Nat`.
-/

/-- A JavaScript value handed to the binding layer.  `func n` is an
invocable function identified by `n`; `obj` carries property bindings. -/
inductive JsVal where
  | null
  | boolVal (b : Bool)
  | num (n : Int)
  | str (s : String)
  | func (n : Nat)
  | obj (props : List (String × JsVal))

/-- `jsvIsString` on a possibly-NULL `JsVar*`. -/
def jsvIsString : Option JsVal → Bool
  | some (JsVal.str _) => true
  | _ => false

/-- `jsvIsFunction` on a possibly-NULL `JsVar*`. -/
def jsvIsFunction : Option JsVal → Bool
  | some (JsVal.func _) => true
  | _ => false

/-- `jsvIsObject` on a possibly-NULL `JsVar*`. -/
def jsvIsObject : Option JsVal → Bool
  | some (JsVal.obj _) => true
  | _ => false

/-- `jsvIsNull` on a possibly-NULL `JsVar*` (the JS `null` value). -/
def jsvIsNull : Option JsVal → Bool
  | some JsVal.null => true
  | _ => false

/-- `jsvIsUndefined`: in Espruino the `undefined` value is the NULL pointer. -/
def jsvIsUndefined (v : Option JsVal) : Bool := v.isNone

/-- Value of a field of a marshalled event record. -/
inductive FieldVal where
  | str (s : String)
  | int (n : Int)
  | boolVal (b : Bool)
deriving DecidableEq

/-- A marshalled key/value record (a fresh `jsvNewObject` with children). -/
abbrev EventRecord := List (String × FieldVal)

/-- An argument value passed to a queued callback invocation. -/
inductive JsArg where
  | null
  | str (s : String)
  | record (r : EventRecord)
  | array (rs : List EventRecord)
deriving DecidableEq

/-- The three process-wide pending-callback slots of the binding layer. -/
structure WifiState where
  g_jsDisconnectCallback : Option JsVal
  g_jsGotIpCallback : Option JsVal
  g_jsScanCallback : Option JsVal

/-- Initial state: all three callback slots are NULL. -/
def initState : WifiState := ⟨none, none, none⟩

/-- The vendor SDK calls the binding layer can issue. -/
inductive VendorCall where
  | esp_wifi_set_mode
  | esp_wifi_set_config
  | esp_wifi_start
  | esp_wifi_connect
  | esp_wifi_disconnect
  | esp_wifi_scan_start
  | esp_wifi_scan_get_ap_num
  | esp_wifi_scan_get_ap_records
deriving DecidableEq

/-- `esp_err_t` results the vendor stack returns for each fallible call
issued by `connect`/`scan` (0 is `ESP_OK`). -/
structure VendorEnv where
  setModeResult : Int
  setConfigResult : Int
  startResult : Int
  connectResult : Int

/-- A vendor environment in which every call succeeds. -/
def envOK : VendorEnv := ⟨0, 0, 0, 0⟩

/-- Observable actions of one invocation. -/
structure Effects where
  errors : List String
  logs : List String
  vendorCalls : List VendorCall
  queued : List (JsVal × List JsArg)
  published : List (String × EventRecord)

/-- No observable actions. -/
def Effects.empty : Effects := ⟨[], [], [], [], []⟩

/-- Effects of a call that only raises one exception (`jsExceptionHere`). -/
def errEff (msg : String) : Effects := { Effects.empty with errors := [msg] }

/-- The callbacks invoked (queued) by the given effects. -/
def queuedCallbacks (e : Effects) : List JsVal := e.queued.map Prod.fst

/-- The vendor `wifi_auth_mode_t` enumeration; `WIFI_AUTH_MAX` stands for
any value outside the five named modes. -/
inductive Wifi_auth_mode where
  | WIFI_AUTH_OPEN
  | WIFI_AUTH_WEP
  | WIFI_AUTH_WPA_PSK
  | WIFI_AUTH_WPA2_PSK
  | WIFI_AUTH_WPA_WPA2_PSK
  | WIFI_AUTH_MAX
deriving DecidableEq

/-- `authModeToString`: the switch in the source falls through to
`"Unknown"` for any value outside the five named cases. -/
def authModeToString : Wifi_auth_mode → String
  | Wifi_auth_mode.WIFI_AUTH_OPEN => "OPEN"
  | Wifi_auth_mode.WIFI_AUTH_WEP => "WEP"
  | Wifi_auth_mode.WIFI_AUTH_WPA_PSK => "WPA"
  | Wifi_auth_mode.WIFI_AUTH_WPA2_PSK => "WPA2"
  | Wifi_auth_mode.WIFI_AUTH_WPA_WPA2_PSK => "WPA/WPA2"
  | Wifi_auth_mode.WIFI_AUTH_MAX => "Unknown"

/-- The authmode switch inside `jswrap_ESP32_wifi_getAPDetails`, with its
`default:` branch returning `"unknown"`. -/
def getAPDetailsAuthModeString : Wifi_auth_mode → String
  | Wifi_auth_mode.WIFI_AUTH_OPEN => "open"
  | Wifi_auth_mode.WIFI_AUTH_WEP => "wep"
  | Wifi_auth_mode.WIFI_AUTH_WPA2_PSK => "wpa2"
  | Wifi_auth_mode.WIFI_AUTH_WPA_PSK => "wpa"
  | Wifi_auth_mode.WIFI_AUTH_WPA_WPA2_PSK => "wpa_wpa2"
  | Wifi_auth_mode.WIFI_AUTH_MAX => "unknown"

/-- Reading a C string from memory: the bytes before the first NUL. -/
def cString (mem : List Nat) : List Nat := mem.takeWhile (fun b => b != 0)

/-- Decoding a fixed 32-byte SSID field: `strncpy(buf, src, 32)` followed by
`buf[32] = 0` and reading `buf` as a C string — at most 32 bytes are read
from `src` and an embedded NUL terminates the result. -/
def decodeSsid32 (src : List Nat) : List Nat := cString (src.take 32)

/-- A decoded byte buffer turned into an Espruino string (one character per
byte). -/
def bytesToString (bs : List Nat) : String := String.mk (bs.map Char.ofNat)

/-- One lowercase hexadecimal digit (codepoint 48 is the zero digit,
codepoint 97 is the letter a). -/
def hexChar (n : Nat) : Char :=
  if n < 10 then Char.ofNat (48 + n) else Char.ofNat (87 + n)

/-- `%02x` formatting of one byte. -/
def byteToHex (b : Nat) : String := String.mk [hexChar (b / 16 % 16), hexChar (b % 16)]

/-- `MACSTR` formatting: `xx:xx:xx:xx:xx:xx`. -/
def macToString (mac : List Nat) : String := String.intercalate ":" (mac.map byteToHex)

/-- `IPSTR` formatting of four address bytes: dotted decimal. -/
def ipToString (ip : List Nat) : String :=
  String.intercalate "." (ip.map (fun b => toString b))

/-- `sendWifiCompletionCB`: if the slot holds a function, queue it with the
reason string (or JS `null` when the reason is absent) and clear the slot;
otherwise do nothing. -/
def sendWifiCompletionCB : Option JsVal → Option String →
    Option JsVal × List (JsVal × List JsArg)
  | some (JsVal.func n), reason =>
    (none, [(JsVal.func n, [reason.elim JsArg.null JsArg.str])])
  | slot, _ => (slot, [])

/-- One raw `wifi_ap_record_t` from the vendor scan-result list (only the
fields the source reads: `rssi`, `authmode`, and the 32-byte `ssid`). -/
structure Wifi_ap_record where
  rssi : Int
  authmode : Wifi_auth_mode
  ssid : List Nat

/-- Vendor-held scan results available at scan completion
(`esp_wifi_scan_get_ap_num` reports their count). -/
structure ScanEnv where
  apRecords : List Wifi_ap_record

/-- The record `scanCB` builds for one access point. -/
def scanApRecordToJs (r : Wifi_ap_record) : EventRecord :=
  [("rssi", FieldVal.int r.rssi),
   ("authMode", FieldVal.str (authModeToString r.authmode)),
   ("ssid", FieldVal.str (bytesToString (decodeSsid32 r.ssid)))]

/-- `scanCB`: no-op when no scan callback is registered; otherwise fetch the
count, fetch the records only when the count is positive, build the array,
queue the callback with it, and clear the slot. -/
def scanCB (senv : ScanEnv) (st : WifiState) : WifiState × Effects :=
  match st.g_jsScanCallback with
  | none => (st, Effects.empty)
  | some cb =>
    if 0 < senv.apRecords.length then
      ({ st with g_jsScanCallback := none },
       { Effects.empty with
           vendorCalls := [VendorCall.esp_wifi_scan_get_ap_num,
                           VendorCall.esp_wifi_scan_get_ap_records],
           queued := [(cb, [JsArg.array (senv.apRecords.map scanApRecordToJs)])] })
    else
      ({ st with g_jsScanCallback := none },
       { Effects.empty with
           vendorCalls := [VendorCall.esp_wifi_scan_get_ap_num],
           queued := [(cb, [JsArg.array []])] })

/-- A vendor `system_event_t` delivered to the event handler, with the
payload fields the source reads.  `scanDone` carries the vendor-held scan
results that `scanCB` fetches. -/
inductive SystemEvent where
  | staDisconnected (ssid bssid : List Nat) (reason : Nat)
  | staConnected (ssid bssid : List Nat) (channel : Nat)
  | staGotIp (ip netmask gw : List Nat)
  | apStaConnected (mac : List Nat)
  | apStaDisconnected (mac : List Nat)
  | scanDone (senv : ScanEnv)
  | otherEvent

/-- `event_handler`: the single entry point invoked by the vendor stack. -/
def event_handler (ev : SystemEvent) (st : WifiState) : WifiState × Effects :=
  match ev with
  | SystemEvent.staDisconnected ssid bssid reason =>
    let resolved :=
      match st.g_jsDisconnectCallback with
      | some (JsVal.func n) =>
        ({ st with g_jsDisconnectCallback := none },
         [((JsVal.func n : JsVal), ([] : List JsArg))])
      | _ => (st, ([] : List (JsVal × List JsArg)))
    let details : EventRecord :=
      [("ssid", FieldVal.str (bytesToString (decodeSsid32 ssid))),
       ("mac", FieldVal.str (macToString bssid)),
       ("reason", FieldVal.str (toString reason))]
    (resolved.1,
     { Effects.empty with
         queued := resolved.2,
         published := [("#ondisconnected", details)] })
  | SystemEvent.staConnected ssid bssid channel =>
    let details : EventRecord :=
      [("ssid", FieldVal.str (bytesToString (decodeSsid32 ssid))),
       ("mac", FieldVal.str (macToString bssid)),
       ("channel", FieldVal.str (toString channel))]
    (st, { Effects.empty with published := [("#onassociated", details)] })
  | SystemEvent.staGotIp ip netmask gw =>
    let resolved := sendWifiCompletionCB st.g_jsGotIpCallback none
    let details : EventRecord :=
      [("ip", FieldVal.str (ipToString ip)),
       ("netmask", FieldVal.str (ipToString netmask)),
       ("gw", FieldVal.str (ipToString gw))]
    ({ st with g_jsGotIpCallback := resolved.1 },
     { Effects.empty with
         queued := resolved.2,
         published := [("#onconnected", details)] })
  | SystemEvent.apStaConnected mac =>
    (st, { Effects.empty with
             published := [("#onsta_joined", [("mac", FieldVal.str (macToString mac))])] })
  | SystemEvent.apStaDisconnected mac =>
    (st, { Effects.empty with
             published := [("#onsta_left", [("mac", FieldVal.str (macToString mac))])] })
  | SystemEvent.scanDone senv => scanCB senv st
  | SystemEvent.otherEvent => (st, Effects.empty)

/-- `jswrap_ESP32_wifi_disconnect`: clears the disconnect slot first, then
validates the callback, then registers it and calls the vendor. -/
def jswrap_ESP32_wifi_disconnect (st : WifiState) (jsCallback : Option JsVal) :
    WifiState × Effects :=
  let st1 := { st with g_jsDisconnectCallback := none }
  if jsCallback.isSome && !(jsvIsUndefined jsCallback) && !(jsvIsFunction jsCallback) then
    (st1, errEff "Expecting callback function but got %v")
  else
    ({ st1 with g_jsDisconnectCallback := jsCallback },
     { Effects.empty with vendorCalls := [VendorCall.esp_wifi_disconnect] })

/-- An `ESP_LOGE` line of `jswrap_ESP32_wifi_connect`. -/
def connectLog (fn : String) (err : Int) : String :=
  "jswrap_ESP32_wifi_connect: " ++ fn ++ ": " ++ toString err

/-- The optional-password extraction of `jswrap_ESP32_wifi_connect`:
`jsvObjectGetChild(jsOptions, "password", 0)`, rejected when present and not
a string, truncated to 64 characters otherwise. -/
def connectPassword : Option JsVal → Except String String
  | none => Except.ok ""
  | some (JsVal.obj props) =>
    match props.lookup "password" with
    | none => Except.ok ""
    | some (JsVal.str s) => Except.ok (s.take 64)
    | some _ => Except.error "Expecting options.password to be a string but got %t"
  | some _ => Except.ok ""

/-- `jswrap_ESP32_wifi_connect`.  The got-IP slot is cleared before the
callback shape check; the disconnect slot is cleared after it; the new
callback is registered after `esp_wifi_start` succeeds and before
`esp_wifi_connect` is issued. -/
def jswrap_ESP32_wifi_connect (env : VendorEnv) (st : WifiState)
    (jsSsid jsOptions jsCallback : Option JsVal) : WifiState × Effects :=
  if !(jsvIsString jsSsid) then
    (st, errEff "No SSID provided")
  else if jsOptions.isSome && !(jsvIsObject jsOptions) then
    (st, errEff "Expecting options object but got %t")
  else
    let st1 := { st with g_jsGotIpCallback := none }
    if jsCallback.isSome && !(jsvIsUndefined jsCallback) && !(jsvIsFunction jsCallback) then
      (st1, errEff "Expecting callback function but got %v")
    else
      let st2 := { st1 with g_jsDisconnectCallback := none }
      match connectPassword jsOptions with
      | Except.error msg => (st2, errEff msg)
      | Except.ok _ =>
        if env.setModeResult ≠ 0 then
          (st2, { Effects.empty with
                    vendorCalls := [VendorCall.esp_wifi_set_mode],
                    logs := [connectLog "esp_wifi_set_mode" env.setModeResult] })
        else if env.setConfigResult ≠ 0 then
          (st2, { Effects.empty with
                    vendorCalls := [VendorCall.esp_wifi_set_mode,
                                    VendorCall.esp_wifi_set_config],
                    logs := [connectLog "esp_wifi_set_config" env.setConfigResult] })
        else if env.startResult ≠ 0 then
          (st2, { Effects.empty with
                    vendorCalls := [VendorCall.esp_wifi_set_mode,
                                    VendorCall.esp_wifi_set_config,
                                    VendorCall.esp_wifi_start],
                    logs := [connectLog "esp_wifi_start" env.startResult] })
        else
          let st3 := { st2 with g_jsGotIpCallback := jsCallback }
          if env.connectResult ≠ 0 then
            (st3, { Effects.empty with
                      vendorCalls := [VendorCall.esp_wifi_set_mode,
                                      VendorCall.esp_wifi_set_config,
                                      VendorCall.esp_wifi_start,
                                      VendorCall.esp_wifi_connect],
                      logs := [connectLog "esp_wifi_connect" env.connectResult] })
          else
            (st3, { Effects.empty with
                      vendorCalls := [VendorCall.esp_wifi_set_mode,
                                      VendorCall.esp_wifi_set_config,
                                      VendorCall.esp_wifi_start,
                                      VendorCall.esp_wifi_connect] })

/-- `jswrap_ESP32_wifi_scan`: fails outright when a scan is pending,
validates the callback, registers it, and only then issues the vendor
sequence.  (The start-failure log keeps the source's copy-pasted
`jswrap_ESP32_wifi_connect` prefix.) -/
def jswrap_ESP32_wifi_scan (env : VendorEnv) (st : WifiState)
    (jsCallback : Option JsVal) : WifiState × Effects :=
  if st.g_jsScanCallback.isSome then
    (st, errEff "A scan is already in progress.")
  else if !(jsvIsFunction jsCallback) then
    (st, errEff "Expecting callback function but got %v")
  else
    let st1 := { st with g_jsScanCallback := jsCallback }
    if env.setModeResult ≠ 0 then
      (st1, { Effects.empty with
                vendorCalls := [VendorCall.esp_wifi_set_mode],
                logs := ["jswrap_ESP32_wifi_scan: esp_wifi_set_mode: "
                           ++ toString env.setModeResult] })
    else if env.startResult ≠ 0 then
      (st1, { Effects.empty with
                vendorCalls := [VendorCall.esp_wifi_set_mode, VendorCall.esp_wifi_start],
                logs := [connectLog "esp_wifi_start" env.startResult] })
    else
      (st1, { Effects.empty with
                vendorCalls := [VendorCall.esp_wifi_set_mode, VendorCall.esp_wifi_start,
                                VendorCall.esp_wifi_scan_start] })

/-- The vendor `wifi_sta_config_t` as read by `getDetails`: the 32-byte
`ssid` field, the 64-byte `password` field, and — because the source hands
the raw field to `jsvNewFromString` — the bytes of adjacent memory that
follow the `password` field. -/
structure Wifi_sta_config where
  ssid : List Nat
  password : List Nat
  memAfterPassword : List Nat

/-- `jswrap_ESP32_wifi_getDetails`.  The ssid is decoded through the bounded
`strncpy` copy; the password string is built from the raw `config.password`
pointer (reading up to the first NUL, wherever it lies), exactly as the
source does. -/
def jswrap_ESP32_wifi_getDetails (config : Wifi_sta_config)
    (jsCallback : Option JsVal) : Option EventRecord × Effects :=
  if jsCallback.isSome && !(jsvIsNull jsCallback) && !(jsvIsFunction jsCallback) then
    (none, errEff "Expecting callback function but got %v")
  else
    let details : EventRecord :=
      [("ssid", FieldVal.str (bytesToString (decodeSsid32 config.ssid))),
       ("password", FieldVal.str (bytesToString
          (cString (config.password ++ config.memAfterPassword))))]
    let q : List (JsVal × List JsArg) :=
      match jsCallback with
      | some (JsVal.func n) => [(JsVal.func n, [JsArg.record details])]
      | _ => []
    (some details, { Effects.empty with queued := q })

/-- The vendor `wifi_ap_config_t` as read by `getAPDetails`, again with the
adjacent memory following the 64-byte `password` field. -/
structure Wifi_ap_config where
  authmode : Wifi_auth_mode
  ssid_hidden : Bool
  max_connection : Int
  ssid : List Nat
  password : List Nat
  memAfterPassword : List Nat

/-- `jswrap_ESP32_wifi_getAPDetails`.  As in `getDetails`, the password
string is built from the raw `config.password` pointer although a bounded,
forcibly terminated copy was prepared. -/
def jswrap_ESP32_wifi_getAPDetails (config : Wifi_ap_config)
    (jsCallback : Option JsVal) : Option EventRecord × Effects :=
  if jsCallback.isSome && !(jsvIsNull jsCallback) && !(jsvIsFunction jsCallback) then
    (none, errEff "Expecting callback function but got %v")
  else
    let details : EventRecord :=
      [("authMode", FieldVal.str (getAPDetailsAuthModeString config.authmode)),
       ("hidden", FieldVal.boolVal config.ssid_hidden),
       ("maxConn", FieldVal.int config.max_connection),
       ("ssid", FieldVal.str (bytesToString (decodeSsid32 config.ssid))),
       ("password", FieldVal.str (bytesToString
          (cString (config.password ++ config.memAfterPassword))))]
    let q : List (JsVal × List JsArg) :=
      match jsCallback with
      | some (JsVal.func n) => [(JsVal.func n, [JsArg.record details])]
      | _ => []
    (some details, { Effects.empty with queued := q })

/-- The bounded decoding the source prepares for the 64-byte password field
(`strncpy(buf, config.password, 64); buf[64] = 0;`): at most 64 bytes, with
forced termination. -/
def boundedPasswordDecode (password : List Nat) : List Nat :=
  cString (password.take 64)

/-! ## Helper lemmas -/

/-- A C-string read of a buffer whose bytes are all non-NUL returns the
whole buffer. -/
theorem cString_of_all_ne_zero (l : List Nat) (h : ∀ b ∈ l, b ≠ 0) :
    cString l = l := by
  induction l with
  | nil => rfl
  | cons a t ih =>
    have ha : a ≠ 0 := h a (List.mem_cons_self a t)
    have ht : ∀ b ∈ t, b ≠ 0 := fun b hb => h b (List.mem_cons_of_mem a hb)
    have iht := ih ht
    simp only [cString] at iht ⊢
    simp [List.takeWhile_cons, ha, iht]

/-- A C-string read stops at the first NUL byte. -/
theorem cString_first_zero (l : List Nat) (k : Nat) (hk : k < l.length)
    (h0 : l.getD k 0 = 0) (hpre : ∀ j, j < k → l.getD j 0 ≠ 0) :
    cString l = l.take k := by
  induction l generalizing k with
  | nil => exact absurd hk (Nat.not_lt_zero k)
  | cons a t ih =>
    cases k with
    | zero =>
      have ha : a = 0 := h0
      simp [cString, List.takeWhile_cons, ha]
    | succ k =>
      have ha : a ≠ 0 := hpre 0 (Nat.succ_pos k)
      have h0t : t.getD k 0 = 0 := h0
      have hpret : ∀ j, j < k → t.getD j 0 ≠ 0 :=
        fun j hj => hpre (j + 1) (Nat.succ_lt_succ hj)
      have iht := ih k (Nat.lt_of_succ_lt_succ hk) h0t hpret
      simp only [cString] at iht ⊢
      simp [List.takeWhile_cons, ha, List.take_succ_cons, iht]

/-- `bytesToString` produces one character per byte. -/
theorem bytesToString_length (bs : List Nat) :
    (bytesToString bs).length = bs.length := by
  simp [bytesToString, String.length]

/-! ## Claim theorems -/

/-- Claim C3, counterexample: a scan-result record built for a vendor record
with authentication mode `WIFI_AUTH_OPEN` carries the authMode string
`"OPEN"`, not the short name `"open"` the claim requires. -/
theorem c3_counterexample :
    (scanCB ⟨[⟨-40, Wifi_auth_mode.WIFI_AUTH_OPEN, List.replicate 32 0⟩]⟩
        { initState with g_jsScanCallback := some (JsVal.func 0) }).2.queued =
      [(JsVal.func 0, [JsArg.array
        [[("rssi", FieldVal.int (-40)),
          ("authMode", FieldVal.str "OPEN"),
          ("ssid", FieldVal.str "")]]])] ∧
    "OPEN" ≠ "open" := by
  exact ⟨rfl, by decide⟩

/-- Claim C3, amended: both authentication-mode mappings are total with a
default branch, but the scan-result record uses the uppercase display names
(`OPEN`, `WEP`, `WPA`, `WPA2`, `WPA/WPA2`, else `Unknown`) while the
AP-details record uses the lowercase names (`open`, `wep`, `wpa`, `wpa2`,
`wpa_wpa2`, else `unknown`). -/
theorem c3_amended :
    authModeToString Wifi_auth_mode.WIFI_AUTH_OPEN = "OPEN" ∧
    authModeToString Wifi_auth_mode.WIFI_AUTH_WEP = "WEP" ∧
    authModeToString Wifi_auth_mode.WIFI_AUTH_WPA_PSK = "WPA" ∧
    authModeToString Wifi_auth_mode.WIFI_AUTH_WPA2_PSK = "WPA2" ∧
    authModeToString Wifi_auth_mode.WIFI_AUTH_WPA_WPA2_PSK = "WPA/WPA2" ∧
    getAPDetailsAuthModeString Wifi_auth_mode.WIFI_AUTH_OPEN = "open" ∧
    getAPDetailsAuthModeString Wifi_auth_mode.WIFI_AUTH_WEP = "wep" ∧
    getAPDetailsAuthModeString Wifi_auth_mode.WIFI_AUTH_WPA_PSK = "wpa" ∧
    getAPDetailsAuthModeString Wifi_auth_mode.WIFI_AUTH_WPA2_PSK = "wpa2" ∧
    getAPDetailsAuthModeString Wifi_auth_mode.WIFI_AUTH_WPA_WPA2_PSK = "wpa_wpa2" ∧
    (∀ m : Wifi_auth_mode,
      m = Wifi_auth_mode.WIFI_AUTH_OPEN ∨ m = Wifi_auth_mode.WIFI_AUTH_WEP ∨
      m = Wifi_auth_mode.WIFI_AUTH_WPA_PSK ∨ m = Wifi_auth_mode.WIFI_AUTH_WPA2_PSK ∨
      m = Wifi_auth_mode.WIFI_AUTH_WPA_WPA2_PSK ∨
      (authModeToString m = "Unknown" ∧ getAPDetailsAuthModeString m = "unknown")) ∧
    (∀ r : Wifi_ap_record, (scanApRecordToJs r).lookup "authMode" =
      some (FieldVal.str (authModeToString r.authmode))) := by
  refine ⟨rfl, rfl, rfl, rfl, rfl, rfl, rfl, rfl, rfl, rfl, ?_, fun r => rfl⟩
  intro m
  cases m <;> simp [authModeToString, getAPDetailsAuthModeString]

/-- Claim C4, evidence of the code bug: with a station configuration whose
64-byte password field holds 64 non-NUL bytes, `getDetails` builds the
password string from the raw field pointer and so includes the adjacent
memory bytes `88, 89, 90` that follow the field — 67 characters in total —
although the source prepared a bounded, forcibly terminated 64-byte copy
(`boundedPasswordDecode`), which would have produced 64 characters.  The
same raw-pointer read occurs in `getAPDetails`. -/
theorem c4_password_overread :
    (jswrap_ESP32_wifi_getDetails
        ⟨List.replicate 32 0, List.replicate 64 97, [88, 89, 90, 0]⟩ none).1 =
      some
        [("ssid", FieldVal.str ""),
         ("password", FieldVal.str
            (bytesToString (List.replicate 64 97 ++ [88, 89, 90])))] ∧
    (bytesToString (List.replicate 64 97 ++ [88, 89, 90])).length = 67 ∧
    bytesToString (List.replicate 64 97 ++ [88, 89, 90]) ≠
      bytesToString (boundedPasswordDecode (List.replicate 64 97)) ∧
    (bytesToString (boundedPasswordDecode (List.replicate 64 97))).length = 64 ∧
    (jswrap_ESP32_wifi_getAPDetails
        ⟨Wifi_auth_mode.WIFI_AUTH_WPA2_PSK, false, 4,
         List.replicate 32 0, List.replicate 64 97, [88, 89, 90, 0]⟩ none).1 =
      some
        [("authMode", FieldVal.str "wpa2"),
         ("hidden", FieldVal.boolVal false),
         ("maxConn", FieldVal.int 4),
         ("ssid", FieldVal.str ""),
         ("password", FieldVal.str
            (bytesToString (List.replicate 64 97 ++ [88, 89, 90])))] := by
  refine ⟨rfl, by decide, by decide, by decide, rfl⟩

/-- Claim C5: `connect("myssid", {password:"secret"}, cb)` with all vendor
calls succeeding registers `cb`; a subsequent got-IP event with
ip 192.168.1.5, netmask 255.255.255.0, gw 192.168.1.1 queues `cb` exactly
once with JS `null` as its single argument, publishes one `#onconnected`
event whose record has exactly the fields ip, netmask, gw as dotted-decimal
strings, and leaves the connect callback slot empty. -/
theorem c5_connect_then_got_ip :
    (jswrap_ESP32_wifi_connect envOK initState (some (JsVal.str "myssid"))
        (some (JsVal.obj [("password", JsVal.str "secret")]))
        (some (JsVal.func 0))).1.g_jsGotIpCallback = some (JsVal.func 0) ∧
    (jswrap_ESP32_wifi_connect envOK initState (some (JsVal.str "myssid"))
        (some (JsVal.obj [("password", JsVal.str "secret")]))
        (some (JsVal.func 0))).2.queued = [] ∧
    (event_handler (SystemEvent.staGotIp [192, 168, 1, 5] [255, 255, 255, 0] [192, 168, 1, 1])
        (jswrap_ESP32_wifi_connect envOK initState (some (JsVal.str "myssid"))
          (some (JsVal.obj [("password", JsVal.str "secret")]))
          (some (JsVal.func 0))).1).2.queued = [(JsVal.func 0, [JsArg.null])] ∧
    (event_handler (SystemEvent.staGotIp [192, 168, 1, 5] [255, 255, 255, 0] [192, 168, 1, 1])
        (jswrap_ESP32_wifi_connect envOK initState (some (JsVal.str "myssid"))
          (some (JsVal.obj [("password", JsVal.str "secret")]))
          (some (JsVal.func 0))).1).2.published =
      [("#onconnected",
        [("ip", FieldVal.str "192.168.1.5"),
         ("netmask", FieldVal.str "255.255.255.0"),
         ("gw", FieldVal.str "192.168.1.1")])] ∧
    (event_handler (SystemEvent.staGotIp [192, 168, 1, 5] [255, 255, 255, 0] [192, 168, 1, 1])
        (jswrap_ESP32_wifi_connect envOK initState (some (JsVal.str "myssid"))
          (some (JsVal.obj [("password", JsVal.str "secret")]))
          (some (JsVal.func 0))).1).1.g_jsGotIpCallback = none := by
  exact ⟨rfl, rfl, rfl, rfl, rfl⟩

/-- Claim C7: invoking `scan` while a scan callback is registered fails
synchronously with an error, issues no vendor call, and leaves the whole
state — in particular the pending scan callback — unchanged. -/
theorem c7_scan_reentrancy (st : WifiState) (v : JsVal) (env : VendorEnv)
    (jsCallback : Option JsVal) :
    jswrap_ESP32_wifi_scan env { st with g_jsScanCallback := some v } jsCallback =
      ({ st with g_jsScanCallback := some v },
       errEff "A scan is already in progress.") := by
  rfl

/-- Claim C10: a scan-done event arriving while a scan callback is
registered and the vendor reports zero access points still queues the
callback exactly once, with an empty array as its single argument, clears
the scan slot, and skips the vendor record-fetch call entirely (only the
count is fetched). -/
theorem c10_scan_done_zero_aps (st : WifiState) (n : Nat) :
    (event_handler (SystemEvent.scanDone ⟨[]⟩)
        { st with g_jsScanCallback := some (JsVal.func n) }).2.queued =
      [(JsVal.func n, [JsArg.array []])] ∧
    (event_handler (SystemEvent.scanDone ⟨[]⟩)
        { st with g_jsScanCallback := some (JsVal.func n) }).1.g_jsScanCallback = none ∧
    (event_handler (SystemEvent.scanDone ⟨[]⟩)
        { st with g_jsScanCallback := some (JsVal.func n) }).2.vendorCalls =
      [VendorCall.esp_wifi_scan_get_ap_num] ∧
    VendorCall.esp_wifi_scan_get_ap_records ∉
      (event_handler (SystemEvent.scanDone ⟨[]⟩)
        { st with g_jsScanCallback := some (JsVal.func n) }).2.vendorCalls := by
  refine ⟨rfl, rfl, rfl, ?_⟩
  intro hmem
  simp only [event_handler, scanCB] at hmem
  simp at hmem

/-- Claim C6: resolving a pending callback through event dispatch clears its
slot; dispatching an event whose matching slot is empty queues no callback;
and a second delivery of the same event kind after resolution queues no
callback again — for the disconnect, got-IP, and scan-done paths. -/
theorem c6_resolution_consumes_slot (st : WifiState) (n : Nat)
    (ssid bssid : List Nat) (reason : Nat) (ip netmask gw : List Nat)
    (senv : ScanEnv) :
    ((event_handler (SystemEvent.staDisconnected ssid bssid reason)
        { st with g_jsDisconnectCallback := some (JsVal.func n) }).1.g_jsDisconnectCallback
      = none) ∧
    queuedCallbacks (event_handler (SystemEvent.staDisconnected ssid bssid reason)
        { st with g_jsDisconnectCallback := some (JsVal.func n) }).2 = [JsVal.func n] ∧
    (event_handler (SystemEvent.staDisconnected ssid bssid reason)
        (event_handler (SystemEvent.staDisconnected ssid bssid reason)
          { st with g_jsDisconnectCallback := some (JsVal.func n) }).1).2.queued = [] ∧
    (event_handler (SystemEvent.staDisconnected ssid bssid reason)
        { st with g_jsDisconnectCallback := none }).2.queued = [] ∧
    ((event_handler (SystemEvent.staGotIp ip netmask gw)
        { st with g_jsGotIpCallback := some (JsVal.func n) }).1.g_jsGotIpCallback = none) ∧
    queuedCallbacks (event_handler (SystemEvent.staGotIp ip netmask gw)
        { st with g_jsGotIpCallback := some (JsVal.func n) }).2 = [JsVal.func n] ∧
    (event_handler (SystemEvent.staGotIp ip netmask gw)
        (event_handler (SystemEvent.staGotIp ip netmask gw)
          { st with g_jsGotIpCallback := some (JsVal.func n) }).1).2.queued = [] ∧
    (event_handler (SystemEvent.staGotIp ip netmask gw)
        { st with g_jsGotIpCallback := none }).2.queued = [] ∧
    ((event_handler (SystemEvent.scanDone senv)
        { st with g_jsScanCallback := some (JsVal.func n) }).1.g_jsScanCallback = none) ∧
    queuedCallbacks (event_handler (SystemEvent.scanDone senv)
        { st with g_jsScanCallback := some (JsVal.func n) }).2 = [JsVal.func n] ∧
    (event_handler (SystemEvent.scanDone senv)
        (event_handler (SystemEvent.scanDone senv)
          { st with g_jsScanCallback := some (JsVal.func n) }).1).2.queued = [] ∧
    event_handler (SystemEvent.scanDone senv) { st with g_jsScanCallback := none } =
      ({ st with g_jsScanCallback := none }, Effects.empty) := by
  obtain ⟨recs⟩ := senv
  refine ⟨rfl, rfl, rfl, rfl, rfl, rfl, rfl, rfl, ?_, ?_, ?_, rfl⟩ <;>
    cases recs <;> simp [event_handler, scanCB, queuedCallbacks, Effects.empty]

/-- Claim C1, counterexample: `scan` registers the callback before any
vendor call, so when `esp_wifi_set_mode` fails the failure is logged and
the sequence aborted, yet `g_jsScanCallback` is NOT left empty. -/
theorem c1_counterexample :
    (jswrap_ESP32_wifi_scan ⟨3, 0, 0, 0⟩ initState (some (JsVal.func 0))).2.logs =
      ["jswrap_ESP32_wifi_scan: esp_wifi_set_mode: 3"] ∧
    (jswrap_ESP32_wifi_scan ⟨3, 0, 0, 0⟩ initState (some (JsVal.func 0))).2.vendorCalls =
      [VendorCall.esp_wifi_set_mode] ∧
    (jswrap_ESP32_wifi_scan ⟨3, 0, 0, 0⟩ initState (some (JsVal.func 0))).1.g_jsScanCallback =
      some (JsVal.func 0) ∧
    some (JsVal.func 0) ≠ (none : Option JsVal) := by
  exact ⟨rfl, rfl, rfl, Option.some_ne_none (JsVal.func 0)⟩

/-- The amended Claim C1, as a predicate: every vendor failure is logged and
aborts the remaining sequence, and the connect callback slot is left empty
when set-mode, set-config, or start fails — but `connect` registers the new
callback before the final `esp_wifi_connect` call, so a failure there leaves
the callback registered; `scan` registers the callback before any vendor
call, so any vendor failure leaves it registered. -/
def C1Amended (st : WifiState) (e : Int) (n : Nat) : Prop :=
  (jswrap_ESP32_wifi_connect ⟨e, 0, 0, 0⟩ st (some (JsVal.str "myssid")) none
      (some (JsVal.func n)) =
    ({ st with g_jsGotIpCallback := none, g_jsDisconnectCallback := none },
     { Effects.empty with
         vendorCalls := [VendorCall.esp_wifi_set_mode],
         logs := [connectLog "esp_wifi_set_mode" e] })) ∧
  (jswrap_ESP32_wifi_connect ⟨0, e, 0, 0⟩ st (some (JsVal.str "myssid")) none
      (some (JsVal.func n)) =
    ({ st with g_jsGotIpCallback := none, g_jsDisconnectCallback := none },
     { Effects.empty with
         vendorCalls := [VendorCall.esp_wifi_set_mode, VendorCall.esp_wifi_set_config],
         logs := [connectLog "esp_wifi_set_config" e] })) ∧
  (jswrap_ESP32_wifi_connect ⟨0, 0, e, 0⟩ st (some (JsVal.str "myssid")) none
      (some (JsVal.func n)) =
    ({ st with g_jsGotIpCallback := none, g_jsDisconnectCallback := none },
     { Effects.empty with
         vendorCalls := [VendorCall.esp_wifi_set_mode, VendorCall.esp_wifi_set_config,
                         VendorCall.esp_wifi_start],
         logs := [connectLog "esp_wifi_start" e] })) ∧
  (jswrap_ESP32_wifi_connect ⟨0, 0, 0, e⟩ st (some (JsVal.str "myssid")) none
      (some (JsVal.func n)) =
    ({ st with g_jsGotIpCallback := some (JsVal.func n), g_jsDisconnectCallback := none },
     { Effects.empty with
         vendorCalls := [VendorCall.esp_wifi_set_mode, VendorCall.esp_wifi_set_config,
                         VendorCall.esp_wifi_start, VendorCall.esp_wifi_connect],
         logs := [connectLog "esp_wifi_connect" e] })) ∧
  (jswrap_ESP32_wifi_scan ⟨e, 0, 0, 0⟩ { st with g_jsScanCallback := none }
      (some (JsVal.func n)) =
    ({ st with g_jsScanCallback := some (JsVal.func n) },
     { Effects.empty with
         vendorCalls := [VendorCall.esp_wifi_set_mode],
         logs := ["jswrap_ESP32_wifi_scan: esp_wifi_set_mode: " ++ toString e] })) ∧
  (jswrap_ESP32_wifi_scan ⟨0, 0, e, 0⟩ { st with g_jsScanCallback := none }
      (some (JsVal.func n)) =
    ({ st with g_jsScanCallback := some (JsVal.func n) },
     { Effects.empty with
         vendorCalls := [VendorCall.esp_wifi_set_mode, VendorCall.esp_wifi_start],
         logs := [connectLog "esp_wifi_start" e] }))

/-- Claim C1, amended (see `C1Amended`): vendor failures are logged and
abort the sequence, but the callback slot is only guaranteed empty for the
prefix of the connect sequence before `esp_wifi_start` succeeds; a failing
final `esp_wifi_connect`, and any failing vendor call during `scan`, leaves
the new callback registered. -/
theorem c1_amended (st : WifiState) (e : Int) (n : Nat) (h : e ≠ 0) :
    C1Amended st e n := by
  refine ⟨?_, ?_, ?_, ?_, ?_, ?_⟩ <;>
    simp [jswrap_ESP32_wifi_connect, jswrap_ESP32_wifi_scan, connectPassword,
      jsvIsString, jsvIsObject, jsvIsFunction, jsvIsUndefined, h]

/-- Witness for `c1_amended` at the failing status 3 and callback 0. -/
theorem c1_amended_witness : (3 : Int) ≠ 0 ∧ C1Amended initState 3 0 :=
  ⟨by decide, c1_amended initState 3 0 (by decide)⟩

/-- Claim C2, counterexample: calling `disconnect` with a non-invocable
non-null callback while a disconnect callback is pending raises the error
and performs no vendor call, but the pending disconnect callback has been
cleared — the slots are NOT left exactly as they were. -/
theorem c2_counterexample :
    (jswrap_ESP32_wifi_disconnect ⟨some (JsVal.func 7), none, none⟩
        (some (JsVal.str "oops"))).2.errors =
      ["Expecting callback function but got %v"] ∧
    (jswrap_ESP32_wifi_disconnect ⟨some (JsVal.func 7), none, none⟩
        (some (JsVal.str "oops"))).2.vendorCalls = [] ∧
    (jswrap_ESP32_wifi_disconnect ⟨some (JsVal.func 7), none, none⟩
        (some (JsVal.str "oops"))).1.g_jsDisconnectCallback = none ∧
    (none : Option JsVal) ≠ some (JsVal.func 7) := by
  exact ⟨rfl, rfl, rfl, fun h => Option.noConfusion h⟩

/-- The amended Claim C2, as a predicate over an arbitrary prior state, a
non-string `v`, a non-object `w`, and a non-invocable `u`: each invalid
shape raises the descriptive error synchronously and performs no vendor
call; a bad ssid or bad options leaves all three slots untouched, but a bad
callback first clears the slot of its own kind (got-IP for `connect`,
disconnect for `disconnect`); the scan slot is never altered. -/
def C2Amended (st : WifiState) (env : VendorEnv) (v w u : JsVal)
    (o c : Option JsVal) : Prop :=
  (jswrap_ESP32_wifi_connect env st (some v) o c = (st, errEff "No SSID provided")) ∧
  (jswrap_ESP32_wifi_connect env st none o c = (st, errEff "No SSID provided")) ∧
  (jswrap_ESP32_wifi_connect env st (some (JsVal.str "ssid")) (some w) c =
    (st, errEff "Expecting options object but got %t")) ∧
  (jswrap_ESP32_wifi_connect env st (some (JsVal.str "ssid")) none (some u) =
    ({ st with g_jsGotIpCallback := none },
     errEff "Expecting callback function but got %v")) ∧
  (jswrap_ESP32_wifi_disconnect st (some u) =
    ({ st with g_jsDisconnectCallback := none },
     errEff "Expecting callback function but got %v"))

/-- Claim C2, amended (see `C2Amended`): invalid shapes fail synchronously
with a descriptive error and no vendor call, but the pending-callback slot
of the operation's own kind is cleared before the callback-shape check, so
it is not left untouched. -/
theorem c2_amended (st : WifiState) (env : VendorEnv) (v w u : JsVal)
    (o c : Option JsVal)
    (hssid : jsvIsString (some v) = false)
    (hopt : jsvIsObject (some w) = false)
    (hcb : jsvIsFunction (some u) = false) :
    C2Amended st env v w u o c := by
  refine ⟨?_, ?_, ?_, ?_, ?_⟩ <;>
    simp [jswrap_ESP32_wifi_connect, jswrap_ESP32_wifi_disconnect,
      jsvIsUndefined, connectPassword, hssid, hopt, hcb,
      show jsvIsString none = false from rfl,
      show ∀ s, jsvIsString (some (JsVal.str s)) = true from fun s => rfl]

/-- Witness for `c2_amended`: a number is neither a string, an object, nor
an invocable callback. -/
theorem c2_amended_witness :
    jsvIsString (some (JsVal.num 1)) = false ∧
    jsvIsObject (some (JsVal.num 2)) = false ∧
    jsvIsFunction (some (JsVal.num 3)) = false ∧
    C2Amended initState envOK (JsVal.num 1) (JsVal.num 2) (JsVal.num 3) none none :=
  ⟨rfl, rfl, rfl,
   c2_amended initState envOK (JsVal.num 1) (JsVal.num 2) (JsVal.num 3) none none
     rfl rfl rfl⟩

/-- Claim C8, counterexample: in the claimed sequence the options argument
is the JS `null` value, which is a non-NULL `JsVar` that is not an object —
so `connect("ssid", null, cbB)` raises the options-shape error before the
clearing step: cbA stays registered in `g_jsDisconnectCallback`, cbB is
never registered, and a subsequent disconnect event still invokes cbA. -/
theorem c8_counterexample :
    (jswrap_ESP32_wifi_disconnect initState (some (JsVal.func 0))).1.g_jsDisconnectCallback
      = some (JsVal.func 0) ∧
    (jswrap_ESP32_wifi_connect envOK
        (jswrap_ESP32_wifi_disconnect initState (some (JsVal.func 0))).1
        (some (JsVal.str "ssid")) (some JsVal.null) (some (JsVal.func 1))).2.errors =
      ["Expecting options object but got %t"] ∧
    (jswrap_ESP32_wifi_connect envOK
        (jswrap_ESP32_wifi_disconnect initState (some (JsVal.func 0))).1
        (some (JsVal.str "ssid")) (some JsVal.null) (some (JsVal.func 1))).1.g_jsDisconnectCallback
      = some (JsVal.func 0) ∧
    (jswrap_ESP32_wifi_connect envOK
        (jswrap_ESP32_wifi_disconnect initState (some (JsVal.func 0))).1
        (some (JsVal.str "ssid")) (some JsVal.null) (some (JsVal.func 1))).1.g_jsGotIpCallback
      = none ∧
    queuedCallbacks (event_handler
        (SystemEvent.staDisconnected (List.replicate 32 0) (List.replicate 6 0) 1)
        (jswrap_ESP32_wifi_connect envOK
          (jswrap_ESP32_wifi_disconnect initState (some (JsVal.func 0))).1
          (some (JsVal.str "ssid")) (some JsVal.null) (some (JsVal.func 1))).1).2 =
      [JsVal.func 0] := by
  exact ⟨rfl, rfl, rfl, rfl, rfl⟩

/-- The amended Claim C8, as a predicate: with the options argument omitted
(the NULL/undefined `JsVar*`), `disconnect(cbA)` followed by
`connect("ssid", cbB)` clears cbA, registers cbB in the got-IP slot, queues
neither callback during the two calls, and no subsequent event dispatch can
invoke cbA. -/
def C8Amended (a b : Nat) (ev : SystemEvent) : Prop :=
  (jswrap_ESP32_wifi_disconnect initState (some (JsVal.func a))).1.g_jsDisconnectCallback
      = some (JsVal.func a) ∧
  (jswrap_ESP32_wifi_disconnect initState (some (JsVal.func a))).2.queued = [] ∧
  (jswrap_ESP32_wifi_connect envOK
      (jswrap_ESP32_wifi_disconnect initState (some (JsVal.func a))).1
      (some (JsVal.str "ssid")) none (some (JsVal.func b))).2.queued = [] ∧
  (jswrap_ESP32_wifi_connect envOK
      (jswrap_ESP32_wifi_disconnect initState (some (JsVal.func a))).1
      (some (JsVal.str "ssid")) none (some (JsVal.func b))).1.g_jsDisconnectCallback
      = none ∧
  (jswrap_ESP32_wifi_connect envOK
      (jswrap_ESP32_wifi_disconnect initState (some (JsVal.func a))).1
      (some (JsVal.str "ssid")) none (some (JsVal.func b))).1.g_jsGotIpCallback
      = some (JsVal.func b) ∧
  (jswrap_ESP32_wifi_connect envOK
      (jswrap_ESP32_wifi_disconnect initState (some (JsVal.func a))).1
      (some (JsVal.str "ssid")) none (some (JsVal.func b))).1.g_jsScanCallback
      = none ∧
  JsVal.func a ∉ queuedCallbacks (event_handler ev
      (jswrap_ESP32_wifi_connect envOK
        (jswrap_ESP32_wifi_disconnect initState (some (JsVal.func a))).1
        (some (JsVal.str "ssid")) none (some (JsVal.func b))).1).2

/-- Claim C8, amended (see `C8Amended`): the claimed conflict behaviour
holds when the options argument is omitted rather than the JS `null`
value — cbA is cleared by the connect call and can never be invoked by any
subsequent event dispatch; only cbB remains eligible. -/
theorem c8_amended (a b : Nat) (ev : SystemEvent) (h : a ≠ b) :
    C8Amended a b ev := by
  refine ⟨rfl, rfl, rfl, rfl, rfl, rfl, ?_⟩
  have hst : (jswrap_ESP32_wifi_connect envOK
      (jswrap_ESP32_wifi_disconnect initState (some (JsVal.func a))).1
      (some (JsVal.str "ssid")) none (some (JsVal.func b))).1 =
      ⟨none, some (JsVal.func b), none⟩ := rfl
  rw [hst]
  cases ev <;>
    simp [event_handler, scanCB, sendWifiCompletionCB, queuedCallbacks,
      Effects.empty, h]

/-- Witness for `c8_amended` with cbA = func 0, cbB = func 1, and a got-IP
event as the subsequent dispatch. -/
theorem c8_amended_witness :
    (0 : Nat) ≠ 1 ∧
    C8Amended 0 1 (SystemEvent.staGotIp [192, 168, 1, 5] [255, 255, 255, 0] [192, 168, 1, 1]) :=
  ⟨by decide,
   c8_amended 0 1 (SystemEvent.staGotIp [192, 168, 1, 5] [255, 255, 255, 0] [192, 168, 1, 1])
     (by decide)⟩

/-- Conclusion of Claim C9 for a 32-byte SSID buffer: a buffer with no NUL
byte decodes to all 32 bytes (a 32-character string); a buffer whose first
NUL sits at position k < 32 decodes to its first k bytes (a k-character
string); and this decoding is exactly the one the scan-result record
carries in its `ssid` field. -/
def C9Conclusion (buf : List Nat) : Prop :=
  ((∀ b ∈ buf, b ≠ 0) →
    decodeSsid32 buf = buf ∧ (bytesToString (decodeSsid32 buf)).length = 32) ∧
  (∀ k, k < 32 → buf.getD k 0 = 0 → (∀ j, j < k → buf.getD j 0 ≠ 0) →
    decodeSsid32 buf = buf.take k ∧ (bytesToString (decodeSsid32 buf)).length = k) ∧
  (∀ (rssi : Int) (am : Wifi_auth_mode),
    (scanApRecordToJs ⟨rssi, am, buf⟩).lookup "ssid" =
      some (FieldVal.str (bytesToString (decodeSsid32 buf))))

/-- Claim C9: SSID decoding of a 32-byte scan-result buffer (see
`C9Conclusion`). -/
theorem c9_scan_ssid_decoding (buf : List Nat) (hlen : buf.length = 32) :
    C9Conclusion buf := by
  have h32 : buf.take 32 = buf := by
    rw [← hlen]
    exact List.take_length buf
  refine ⟨?_, ?_, fun rssi am => rfl⟩
  · intro hall
    have hd : decodeSsid32 buf = buf := by
      rw [decodeSsid32, h32]
      exact cString_of_all_ne_zero buf hall
    rw [hd, bytesToString_length, hlen]
    exact ⟨rfl, rfl⟩
  · intro k hk h0 hpre
    have hd : decodeSsid32 buf = buf.take k := by
      rw [decodeSsid32, h32]
      exact cString_first_zero buf k (by rw [hlen]; exact hk) h0 hpre
    refine ⟨hd, ?_⟩
    rw [hd, bytesToString_length, List.length_take, hlen]
    exact min_eq_left (Nat.le_of_lt hk)

/-- Witness for `c9_scan_ssid_decoding` on a concrete 32-byte buffer. -/
theorem c9_scan_ssid_decoding_witness :
    (List.replicate 32 1).length = 32 ∧ C9Conclusion (List.replicate 32 1) :=
  ⟨by decide, c9_scan_ssid_decoding (List.replicate 32 1) (by decide)⟩
